import Mathlib

/-!
Verification of the financial formula engine (`src/formulas.py`).

The engine is a pure function library over Python floats; we embed the
floats as exact reals, Python `int` as `ℤ`, and raising as an
`Except PyError` result.  `math.pow(1+rate, n)` with an integer exponent is
embedded as `zpow`; every guard appears in source order, and the runtime
errors Python itself would raise (`ZeroDivisionError` from float division
by zero, `ValueError` with message "math domain error" from `math.log` /
`math.pow` on out-of-domain arguments) are made explicit at the point
where the source performs the corresponding operation.

The human-readable `analysis` string of `mortgage_vs_invest_analysis` is a
display-only formatted rationale; it is not part of the numeric record and
is not modelled.
-/

/-- Python runtime errors the engine can surface: `ValueError` (raised by the
explicit validation guards and by `math` domain checks) and
`ZeroDivisionError` (float division by zero). -/
inductive PyError where
  | valueError : String → PyError
  | zeroDivisionError : PyError
deriving DecidableEq

/-- Result of a Python function call that may raise. -/
abbrev Res (α : Type) : Type := Except PyError α

/-- A Python float result that may be the `float('inf')` sentinel. -/
inductive PyNum where
  | val : ℝ → PyNum
  | inf : PyNum

/-- Python `int(x)`: truncation toward zero. -/
noncomputable def pyInt (x : ℝ) : ℤ := if x < 0 then -⌊-x⌋ else ⌊x⌋

/-- Python `math.log`: raises `ValueError` on a non-positive argument. -/
noncomputable def pyLog (x : ℝ) : Res ℝ :=
  if x ≤ 0 then .error (.valueError "math domain error") else .ok (Real.log x)

/-- Embedding of `FinancialFormulas.future_value`:
`FV = PV * (1 + r) ^ n`, after the three validation guards. -/
noncomputable def future_value (pv rate : ℝ) (periods : ℤ) : Res ℝ :=
  if pv < 0 then .error (.valueError "Present value cannot be negative")
  else if periods < 0 then .error (.valueError "Number of periods cannot be negative")
  else if rate < -1 then .error (.valueError "Interest rate cannot be less than -100%")
  else .ok (pv * (1 + rate) ^ periods)

/-- Embedding of `FinancialFormulas.present_value`:
`PV = FV / (1 + r) ^ n`; the division is float division, so a zero
denominator (rate exactly -1, positive periods) raises
`ZeroDivisionError` exactly as the Python source would. -/
noncomputable def present_value (fv rate : ℝ) (periods : ℤ) : Res ℝ :=
  if fv < 0 then .error (.valueError "Future value cannot be negative")
  else if periods < 0 then .error (.valueError "Number of periods cannot be negative")
  else if rate < -1 then .error (.valueError "Discount rate cannot be less than -100%")
  else if (1 + rate) ^ periods = 0 then .error .zeroDivisionError
  else .ok (fv / (1 + rate) ^ periods)

/-- Embedding of `FinancialFormulas.future_value_annuity`:
`FV = PMT * [(1 + r) ^ n - 1] / r`, with the explicit `rate == 0` branch
returning `payment * periods`. -/
noncomputable def future_value_annuity (payment rate : ℝ) (periods : ℤ) : Res ℝ :=
  if payment < 0 then .error (.valueError "Payment cannot be negative")
  else if periods < 0 then .error (.valueError "Number of periods cannot be negative")
  else if rate < -1 then .error (.valueError "Interest rate cannot be less than -100%")
  else if rate = 0 then .ok (payment * (periods : ℝ))
  else .ok (payment * ((1 + rate) ^ periods - 1) / rate)

/-- Embedding of `FinancialFormulas.present_value_annuity`:
`PV = PMT * [1 - (1 + r) ^ (-n)] / r`, with the explicit `rate == 0`
branch; `math.pow(0, -n)` for positive `n` raises `ValueError`. -/
noncomputable def present_value_annuity (payment rate : ℝ) (periods : ℤ) : Res ℝ :=
  if payment < 0 then .error (.valueError "Payment cannot be negative")
  else if periods < 0 then .error (.valueError "Number of periods cannot be negative")
  else if rate < -1 then .error (.valueError "Discount rate cannot be less than -100%")
  else if rate = 0 then .ok (payment * (periods : ℝ))
  else if 1 + rate = 0 ∧ 0 < periods then .error (.valueError "math domain error")
  else .ok (payment * (1 - (1 + rate) ^ (-periods)) / rate)

/-- Embedding of `FinancialFormulas.payment_for_future_value`:
`PMT = FV * r / [(1 + r) ^ n - 1]`, with the explicit `rate == 0` branch;
a zero denominator would raise `ZeroDivisionError`. -/
noncomputable def payment_for_future_value (fv rate : ℝ) (periods : ℤ) : Res ℝ :=
  if fv < 0 then .error (.valueError "Future value cannot be negative")
  else if periods ≤ 0 then .error (.valueError "Number of periods must be positive")
  else if rate < -1 then .error (.valueError "Interest rate cannot be less than -100%")
  else if rate = 0 then .ok (fv / (periods : ℝ))
  else if (1 + rate) ^ periods - 1 = 0 then .error .zeroDivisionError
  else .ok (fv * rate / ((1 + rate) ^ periods - 1))

/-- Embedding of `FinancialFormulas.payment_for_present_value`:
`PMT = PV * r / [1 - (1 + r) ^ (-n)]`, with the explicit `rate == 0`
branch; `math.pow(0, -n)` raises `ValueError` (here `n ≥ 1` always), and a
zero denominator would raise `ZeroDivisionError`. -/
noncomputable def payment_for_present_value (pv rate : ℝ) (periods : ℤ) : Res ℝ :=
  if pv < 0 then .error (.valueError "Present value cannot be negative")
  else if periods ≤ 0 then .error (.valueError "Number of periods must be positive")
  else if rate < -1 then .error (.valueError "Interest rate cannot be less than -100%")
  else if rate = 0 then .ok (pv / (periods : ℝ))
  else if 1 + rate = 0 then .error (.valueError "math domain error")
  else if 1 - (1 + rate) ^ (-periods) = 0 then .error .zeroDivisionError
  else .ok (pv * rate / (1 - (1 + rate) ^ (-periods)))

/-- Unguarded closed form of `future_value` (its value on inputs that pass
the guards), used to state theorems about compositions. -/
noncomputable def fvRaw (pv rate : ℝ) (periods : ℤ) : ℝ := pv * (1 + rate) ^ periods

/-- Unguarded closed form of `future_value_annuity`. -/
noncomputable def fvaRaw (payment rate : ℝ) (periods : ℤ) : ℝ :=
  if rate = 0 then payment * (periods : ℝ)
  else payment * ((1 + rate) ^ periods - 1) / rate

/-- Unguarded closed form of `payment_for_present_value`. -/
noncomputable def ppvRaw (pv rate : ℝ) (periods : ℤ) : ℝ :=
  if rate = 0 then pv / (periods : ℝ)
  else pv * rate / (1 - (1 + rate) ^ (-periods))

/-- Unguarded closed form of `payment_for_future_value`. -/
noncomputable def pffvRaw (fv rate : ℝ) (periods : ℤ) : ℝ :=
  if rate = 0 then fv / (periods : ℝ)
  else fv * rate / ((1 + rate) ^ periods - 1)

/-- Embedding of the body of `FinancialFormulas._solve_for_periods`'s
`for` loop: bisection over `[low, high]`, with the iteration budget as
structural fuel.  Each iteration evaluates the guarded `future_value` and
`future_value_annuity` at the truncated midpoint, exactly as the source
does, so any error those raise propagates. -/
noncomputable def solveLoop (pv payment fv rate tolerance : ℝ) :
    ℕ → ℝ → ℝ → Res ℝ
  | 0, low, high => .ok ((low + high) / 2)
  | fuel + 1, low, high =>
    match future_value pv rate (pyInt ((low + high) / 2)) with
    | .error e => .error e
    | .ok a =>
      match future_value_annuity payment rate (pyInt ((low + high) / 2)) with
      | .error e => .error e
      | .ok b =>
        if |a + b - fv| < tolerance then .ok ((low + high) / 2)
        else if a + b < fv then
          solveLoop pv payment fv rate tolerance fuel ((low + high) / 2) high
        else solveLoop pv payment fv rate tolerance fuel low ((low + high) / 2)

/-- Embedding of `FinancialFormulas._solve_for_periods`: bisection over the
fixed bracket `[0, 100]` with a fixed maximum of 1000 iterations; when no
iterate converges, the midpoint of the final bracket is returned. -/
noncomputable def solve_for_periods (pv payment fv rate tolerance : ℝ) : Res ℝ :=
  solveLoop pv payment fv rate tolerance 1000 0 100

/-- One bracket-narrowing step of the bisection, without the convergence
test: the companion function used to name "the final bracket" of
`solveLoop` in theorem statements. -/
noncomputable def bisectStep (pv payment fv rate : ℝ) (b : ℝ × ℝ) : ℝ × ℝ :=
  if fvRaw pv rate (pyInt ((b.1 + b.2) / 2)) +
      fvaRaw payment rate (pyInt ((b.1 + b.2) / 2)) < fv then ((b.1 + b.2) / 2, b.2)
  else (b.1, (b.1 + b.2) / 2)

/-- Iterated `bisectStep`. -/
noncomputable def bisectIter (pv payment fv rate : ℝ) : ℕ → ℝ × ℝ → ℝ × ℝ
  | 0, b => b
  | fuel + 1, b => bisectIter pv payment fv rate fuel (bisectStep pv payment fv rate b)

/-- Embedding of `FinancialFormulas.retirement_age_calculator`.  The
zero-contribution / zero-savings case returns `float('inf')`; the
zero-contribution / positive-savings case computes
`log(target/savings) / log(1+r)` with Python's `math.log` and float
division semantics; otherwise the bisection solver is used (or the linear
form when the expected return is zero), and the resulting age is capped at
100. -/
noncomputable def retirement_age_calculator (current_age : ℤ)
    (current_savings current_income savings_rate target_nest_egg expected_return : ℝ) :
    Res PyNum :=
  if current_age < 18 ∨ 100 < current_age then
    .error (.valueError "Current age must be between 18 and 100")
  else if current_savings < 0 then .error (.valueError "Current savings cannot be negative")
  else if current_income ≤ 0 then .error (.valueError "Current income must be positive")
  else if savings_rate < 0 ∨ 1 < savings_rate then
    .error (.valueError "Savings rate must be between 0 and 1")
  else if target_nest_egg ≤ 0 then .error (.valueError "Target nest egg must be positive")
  else if expected_return < -1 then
    .error (.valueError "Expected return cannot be less than -100%")
  else
    let annual_savings := current_income * savings_rate
    if annual_savings = 0 then
      if current_savings = 0 then .ok .inf
      else
        match pyLog (target_nest_egg / current_savings) with
        | .error e => .error e
        | .ok a =>
          match pyLog (1 + expected_return) with
          | .error e => .error e
          | .ok b =>
            if b = 0 then .error .zeroDivisionError
            else .ok (.val ((min (current_age + ⌈a / b⌉) 100 : ℤ) : ℝ))
    else if expected_return = 0 then
      .ok (.val ((min (current_age + ⌈(target_nest_egg - current_savings) / annual_savings⌉) 100 : ℤ) : ℝ))
    else
      match solve_for_periods current_savings annual_savings target_nest_egg expected_return 0.01 with
      | .error e => .error e
      | .ok years_needed =>
        .ok (.val ((min (current_age + ⌈years_needed⌉) 100 : ℤ) : ℝ))

/-- Embedding of `FinancialFormulas.savings_duration_calculator`: the
`float('inf')` sentinel when withdrawals never exhaust the balance, the
linear form at zero rate, and otherwise the closed logarithmic form with
Python `math.log` / float-division semantics. -/
noncomputable def savings_duration_calculator
    (current_savings withdrawal_rate annual_return : ℝ) : Res PyNum :=
  if current_savings ≤ 0 then .error (.valueError "Current savings must be positive")
  else if withdrawal_rate ≤ 0 then .error (.valueError "Withdrawal rate must be positive")
  else if annual_return < -1 then .error (.valueError "Annual return cannot be less than -100%")
  else if withdrawal_rate ≤ current_savings * annual_return then .ok .inf
  else if annual_return = 0 then .ok (.val (current_savings / withdrawal_rate))
  else if 1 ≤ current_savings * annual_return / withdrawal_rate then .ok .inf
  else
    match pyLog (1 - current_savings * annual_return / withdrawal_rate) with
    | .error e => .error e
    | .ok a =>
      match pyLog (1 + annual_return) with
      | .error e => .error e
      | .ok b =>
        if b = 0 then .error .zeroDivisionError
        else .ok (.val (-a / b))

/-- Embedding of `FinancialFormulas.goal_based_savings_calculator`: grow
current savings forward, return 0 when the goal is already met, otherwise
the annual sinking-fund payment for the shortfall divided by 12. -/
noncomputable def goal_based_savings_calculator (target_amount : ℝ) (time_horizon : ℤ)
    (current_savings expected_return : ℝ) : Res ℝ :=
  if target_amount ≤ 0 then .error (.valueError "Target amount must be positive")
  else if time_horizon ≤ 0 then .error (.valueError "Time horizon must be positive")
  else if current_savings < 0 then .error (.valueError "Current savings cannot be negative")
  else if expected_return < -1 then .error (.valueError "Expected return cannot be less than -100%")
  else
    match future_value current_savings expected_return time_horizon with
    | .error e => .error e
    | .ok future_current_savings =>
      let additional_needed := target_amount - future_current_savings
      if additional_needed ≤ 0 then .ok 0
      else
        match payment_for_future_value additional_needed expected_return time_horizon with
        | .error e => .error e
        | .ok annual_savings => .ok (annual_savings / 12)

/-- Embedding of `FinancialFormulas._calculate_payoff_time`:
`balance / payment` at zero monthly rate, otherwise
`-log(1 - balance * rate / payment) / log(1 + rate)` with Python
`math.log` and float-division semantics. -/
noncomputable def calculate_payoff_time (balance monthly_rate monthly_payment : ℝ) : Res ℝ :=
  if monthly_rate = 0 then
    if monthly_payment = 0 then .error .zeroDivisionError
    else .ok (balance / monthly_payment)
  else if monthly_payment = 0 then .error .zeroDivisionError
  else
    match pyLog (1 - balance * monthly_rate / monthly_payment) with
    | .error e => .error e
    | .ok a =>
      match pyLog (1 + monthly_rate) with
      | .error e => .error e
      | .ok b =>
        if b = 0 then .error .zeroDivisionError
        else .ok (-a / b)

/-- The fixed-shape record returned by `mortgage_vs_invest_analysis` (the
display-only `analysis` rationale string is not modelled). -/
structure MortgageAnalysis where
  mortgage_payment : ℝ
  extra_payment : ℝ
  payoff_years : ℝ
  interest_saved : ℝ
  investment_value : ℝ
  net_benefit : ℝ
  recommendation : String

/-- Embedding of `FinancialFormulas.mortgage_vs_invest_analysis`:
baseline amortizing payment, accelerated payoff with a doubled payment,
interest saved, alternative investment growth of the extra payment, and
the sign-of-net-benefit recommendation (`"invest"` when strictly
positive, `"pay_mortgage"` otherwise). -/
noncomputable def mortgage_vs_invest_analysis (mortgage_balance mortgage_rate : ℝ)
    (mortgage_years : ℤ) (investment_return : ℝ) : Res MortgageAnalysis :=
  if mortgage_balance ≤ 0 then .error (.valueError "Mortgage balance must be positive")
  else if mortgage_rate < 0 then .error (.valueError "Mortgage rate cannot be negative")
  else if mortgage_years ≤ 0 then .error (.valueError "Mortgage years must be positive")
  else if investment_return < -1 then
    .error (.valueError "Investment return cannot be less than -100%")
  else
    let monthly_rate := mortgage_rate / 12
    let total_payments := mortgage_years * 12
    match payment_for_present_value mortgage_balance monthly_rate total_payments with
    | .error e => .error e
    | .ok monthly_payment =>
      let extra_payment := monthly_payment
      let total_monthly_payment := monthly_payment + extra_payment
      match calculate_payoff_time mortgage_balance monthly_rate total_monthly_payment with
      | .error e => .error e
      | .ok payoff_months =>
        let payoff_years := payoff_months / 12
        let original_total_interest := monthly_payment * (total_payments : ℝ) - mortgage_balance
        let early_total_payments := total_monthly_payment * payoff_months
        let early_total_interest := early_total_payments - mortgage_balance
        let interest_saved := original_total_interest - early_total_interest
        let monthly_investment_return := investment_return / 12
        match future_value_annuity extra_payment monthly_investment_return (pyInt payoff_months) with
        | .error e => .error e
        | .ok future_investment_value =>
          let net_benefit := future_investment_value - interest_saved
          let recommendation := if 0 < net_benefit then "invest" else "pay_mortgage"
          .ok ⟨monthly_payment, extra_payment, payoff_years, interest_saved,
               future_investment_value, net_benefit, recommendation⟩

/-- Embedding of `FinancialFormulas.calculate_rule_of_72`. -/
noncomputable def calculate_rule_of_72 (interest_rate : ℝ) : Res ℝ :=
  if interest_rate ≤ 0 then .error (.valueError "Interest rate must be positive")
  else .ok (0.72 / interest_rate)

/-- Embedding of `FinancialFormulas.inflation_adjusted_return`: the source
performs no validation; the only failure mode is the float division by
zero at `inflation_rate = -1`. -/
noncomputable def inflation_adjusted_return (nominal_return inflation_rate : ℝ) : Res ℝ :=
  if 1 + inflation_rate = 0 then .error .zeroDivisionError
  else .ok ((1 + nominal_return) / (1 + inflation_rate) - 1)

/-- Unguarded closed form of `_calculate_payoff_time`. -/
noncomputable def payoffRaw (balance monthly_rate monthly_payment : ℝ) : ℝ :=
  if monthly_rate = 0 then balance / monthly_payment
  else -Real.log (1 - balance * monthly_rate / monthly_payment) / Real.log (1 + monthly_rate)

/-- The baseline monthly payment computed by `mortgage_vs_invest_analysis`
(the value of its `monthly_payment` binding on valid inputs). -/
noncomputable def mortgagePM (B mr : ℝ) (y : ℤ) : ℝ := ppvRaw B (mr / 12) (y * 12)

/-- The accelerated payoff duration in months computed by
`mortgage_vs_invest_analysis` (its `payoff_months` binding): payoff time at
the doubled payment. -/
noncomputable def mortgageMonths (B mr : ℝ) (y : ℤ) : ℝ :=
  payoffRaw B (mr / 12) (mortgagePM B mr y + mortgagePM B mr y)

/-- The interest saved computed by `mortgage_vs_invest_analysis` (its
`interest_saved` binding): baseline total interest minus accelerated total
interest. -/
noncomputable def mortgageIS (B mr : ℝ) (y : ℤ) : ℝ :=
  mortgagePM B mr y * ((y * 12 : ℤ) : ℝ) - B -
    ((mortgagePM B mr y + mortgagePM B mr y) * mortgageMonths B mr y - B)

/-- The alternative investment value computed by
`mortgage_vs_invest_analysis` (its `future_investment_value` binding):
annuity future value of the extra payment at the monthly investment return
over the truncated payoff duration. -/
noncomputable def mortgageInvest (B mr : ℝ) (y : ℤ) (ir : ℝ) : ℝ :=
  fvaRaw (mortgagePM B mr y) (ir / 12) (pyInt (mortgageMonths B mr y))

/-- The net benefit computed by `mortgage_vs_invest_analysis`. -/
noncomputable def mortgageNet (B mr : ℝ) (y : ℤ) (ir : ℝ) : ℝ :=
  mortgageInvest B mr y ir - mortgageIS B mr y

/-! ## Helper lemmas -/

lemma future_value_ok {pv rate : ℝ} {periods : ℤ} (hpv : 0 ≤ pv) (hn : 0 ≤ periods)
    (hr : -1 ≤ rate) : future_value pv rate periods = .ok (fvRaw pv rate periods) := by
  unfold future_value fvRaw
  rw [if_neg (not_lt.2 hpv), if_neg (not_lt.2 hn), if_neg (not_lt.2 hr)]

lemma future_value_annuity_ok {payment rate : ℝ} {periods : ℤ} (hp : 0 ≤ payment)
    (hn : 0 ≤ periods) (hr : -1 ≤ rate) :
    future_value_annuity payment rate periods = .ok (fvaRaw payment rate periods) := by
  unfold future_value_annuity fvaRaw
  rw [if_neg (not_lt.2 hp), if_neg (not_lt.2 hn), if_neg (not_lt.2 hr)]
  split <;> rfl

/-! ## Claims -/

/-- C9: for every payment ≥ 0 and periods ≥ 0, `future_value_annuity` at
rate 0 returns exactly `payment * periods` through the explicit zero-rate
branch (so the general formula's division by the rate is never evaluated),
and likewise `present_value_annuity`. -/
theorem C9_zero_rate_annuity {payment : ℝ} {periods : ℤ} (hp : 0 ≤ payment)
    (hn : 0 ≤ periods) :
    future_value_annuity payment 0 periods = .ok (payment * (periods : ℝ)) ∧
    present_value_annuity payment 0 periods = .ok (payment * (periods : ℝ)) := by
  constructor
  · unfold future_value_annuity
    rw [if_neg (not_lt.2 hp), if_neg (not_lt.2 hn), if_neg (by norm_num), if_pos rfl]
  · unfold present_value_annuity
    rw [if_neg (not_lt.2 hp), if_neg (not_lt.2 hn), if_neg (by norm_num), if_pos rfl]

/-- Witness for C9 at payment 5, periods 3. -/
theorem C9_witness :
    future_value_annuity 5 0 3 = .ok (5 * ((3 : ℤ) : ℝ)) ∧
    present_value_annuity 5 0 3 = .ok (5 * ((3 : ℤ) : ℝ)) :=
  C9_zero_rate_annuity (by norm_num) (by norm_num)

/-- C6: round-trip law. For pv ≥ 0, rate > -1, periods ≥ 0,
`future_value` succeeds with `pv * (1+rate)^periods` and feeding that back
into `present_value` returns exactly `pv` (exact real arithmetic). -/
theorem C6_round_trip {pv rate : ℝ} {periods : ℤ} (hpv : 0 ≤ pv) (hr : -1 < rate)
    (hn : 0 ≤ periods) :
    future_value pv rate periods = .ok (fvRaw pv rate periods) ∧
    present_value (fvRaw pv rate periods) rate periods = .ok pv := by
  have hb : (0 : ℝ) < 1 + rate := by linarith
  have hbz : (1 + rate) ^ periods ≠ 0 := zpow_ne_zero _ (ne_of_gt hb)
  refine ⟨future_value_ok hpv hn hr.le, ?_⟩
  unfold present_value fvRaw
  have hfv : 0 ≤ pv * (1 + rate) ^ periods := mul_nonneg hpv (zpow_nonneg hb.le _)
  rw [if_neg (not_lt.2 hfv), if_neg (not_lt.2 hn), if_neg (not_lt.2 hr.le), if_neg hbz]
  rw [mul_div_assoc, div_self hbz, mul_one]

/-- Witness for C6 at pv 3, rate 1, periods 2. -/
theorem C6_witness :
    future_value 3 1 2 = .ok (fvRaw 3 1 2) ∧
    present_value (fvRaw 3 1 2) 1 2 = .ok 3 :=
  C6_round_trip (by norm_num) (by norm_num) (by norm_num)

/-- C2 counterexample: `inflation_adjusted_return` performs no validation;
at inflation rate -1 the division is attempted and fails with a
`ZeroDivisionError`, which is not a `ValueError` naming the offending
argument. -/
theorem C2_counterexample :
    inflation_adjusted_return 0 (-1) = .error .zeroDivisionError := by
  unfold inflation_adjusted_return
  norm_num

/-- C2 amended: `inflation_adjusted_return` validates nothing; when
`1 + inflation = 0` (inflation exactly -1) the attempted division raises
`ZeroDivisionError`, and otherwise the quotient `(1+nominal)/(1+inflation) - 1`
is computed and returned. -/
theorem C2_no_validation (nominal inflation : ℝ) :
    (1 + inflation = 0 →
      inflation_adjusted_return nominal inflation = .error .zeroDivisionError) ∧
    (1 + inflation ≠ 0 →
      inflation_adjusted_return nominal inflation =
        .ok ((1 + nominal) / (1 + inflation) - 1)) := by
  unfold inflation_adjusted_return
  exact ⟨fun h => by rw [if_pos h], fun h => by rw [if_neg h]⟩

/-- Witness for C2 amended at nominal 0.05, inflation 0.02. -/
theorem C2_witness :
    inflation_adjusted_return 0.05 0.02 = .ok ((1 + 0.05) / (1 + 0.02) - 1) :=
  (C2_no_validation 0.05 0.02).2 (by norm_num)

/-- C3 counterexample: a rate of exactly -1 is not rejected: `future_value`
with rate -1 passes all guards and evaluates to 0. -/
theorem C3_counterexample : future_value 1 (-1) 1 = .ok 0 := by
  unfold future_value
  norm_num

/-- C3 amended: each of the six formula primitives rejects every rate
strictly below -1 with the `ValueError` of its rate guard, before any
value is computed (a rate of exactly -1 passes validation instead). -/
theorem C3_rate_below_neg_one (pv fv payment rate : ℝ) (n m : ℤ)
    (hpv : 0 ≤ pv) (hfv : 0 ≤ fv) (hp : 0 ≤ payment) (hn : 0 ≤ n) (hm : 0 < m)
    (hr : rate < -1) :
    future_value pv rate n = .error (.valueError "Interest rate cannot be less than -100%") ∧
    present_value fv rate n = .error (.valueError "Discount rate cannot be less than -100%") ∧
    future_value_annuity payment rate n =
      .error (.valueError "Interest rate cannot be less than -100%") ∧
    present_value_annuity payment rate n =
      .error (.valueError "Discount rate cannot be less than -100%") ∧
    payment_for_future_value fv rate m =
      .error (.valueError "Interest rate cannot be less than -100%") ∧
    payment_for_present_value pv rate m =
      .error (.valueError "Interest rate cannot be less than -100%") := by
  refine ⟨?_, ?_, ?_, ?_, ?_, ?_⟩
  · unfold future_value; rw [if_neg (not_lt.2 hpv), if_neg (not_lt.2 hn), if_pos hr]
  · unfold present_value; rw [if_neg (not_lt.2 hfv), if_neg (not_lt.2 hn), if_pos hr]
  · unfold future_value_annuity; rw [if_neg (not_lt.2 hp), if_neg (not_lt.2 hn), if_pos hr]
  · unfold present_value_annuity; rw [if_neg (not_lt.2 hp), if_neg (not_lt.2 hn), if_pos hr]
  · unfold payment_for_future_value; rw [if_neg (not_lt.2 hfv), if_neg (not_le.2 hm), if_pos hr]
  · unfold payment_for_present_value; rw [if_neg (not_lt.2 hpv), if_neg (not_le.2 hm), if_pos hr]

/-- Witness for C3 amended at rate -2. -/
theorem C3_witness :
    future_value 1 (-2) 1 = .error (.valueError "Interest rate cannot be less than -100%") ∧
    present_value 1 (-2) 1 = .error (.valueError "Discount rate cannot be less than -100%") ∧
    future_value_annuity 1 (-2) 1 =
      .error (.valueError "Interest rate cannot be less than -100%") ∧
    present_value_annuity 1 (-2) 1 =
      .error (.valueError "Discount rate cannot be less than -100%") ∧
    payment_for_future_value 1 (-2) 1 =
      .error (.valueError "Interest rate cannot be less than -100%") ∧
    payment_for_present_value 1 (-2) 1 =
      .error (.valueError "Interest rate cannot be less than -100%") :=
  C3_rate_below_neg_one 1 1 1 (-2) 1 1 (by norm_num) (by norm_num) (by norm_num)
    (by norm_num) (by norm_num) (by norm_num)

lemma pyLog_ok {x : ℝ} (hx : 0 < x) : pyLog x = .ok (Real.log x) := by
  unfold pyLog
  rw [if_neg (not_le.2 hx)]

lemma log_ne_zero_of_pos_of_ne_one {x : ℝ} (hx : 0 < x) (hx1 : x ≠ 1) :
    Real.log x ≠ 0 := by
  intro h
  rcases Real.log_eq_zero.1 h with h0 | h1 | hm1
  · exact absurd h0 (ne_of_gt hx)
  · exact hx1 h1
  · linarith

/-- C8: for valid inputs (savings > 0, withdrawal > 0, return > -1):
withdrawal ≤ savings * return (equivalently ratio ≥ 1) yields the
`float('inf')` sentinel; a zero return yields exactly savings/withdrawal;
otherwise the closed logarithmic form is returned and both logarithms
receive strictly positive arguments. -/
theorem C8_savings_duration {s w r : ℝ} (hs : 0 < s) (hw : 0 < w) (hr : -1 < r) :
    (w ≤ s * r ∨ 1 ≤ s * r / w → savings_duration_calculator s w r = .ok .inf) ∧
    (r = 0 → savings_duration_calculator s w r = .ok (.val (s / w))) ∧
    (¬ w ≤ s * r → r ≠ 0 →
      savings_duration_calculator s w r =
        .ok (.val (-Real.log (1 - s * r / w) / Real.log (1 + r))) ∧
      0 < 1 - s * r / w ∧ 0 < 1 + r) := by
  unfold savings_duration_calculator
  rw [if_neg (not_le.2 hs), if_neg (not_le.2 hw), if_neg (not_lt.2 hr.le)]
  refine ⟨?_, ?_, ?_⟩
  · rintro (h | h)
    · rw [if_pos h]
    · rw [if_pos ((one_le_div hw).1 h)]
  · intro h0
    subst h0
    rw [if_neg (by rw [mul_zero]; exact not_le.2 hw), if_pos rfl]
  · intro hle hr0
    have hlt : s * r < w := not_le.1 hle
    have hratio : s * r / w < 1 := (div_lt_one hw).2 hlt
    have harg : 0 < 1 - s * r / w := by linarith
    have hb : (0 : ℝ) < 1 + r := by linarith
    rw [if_neg hle, if_neg hr0, if_neg (not_le.2 hratio), pyLog_ok harg, pyLog_ok hb]
    refine ⟨?_, harg, hb⟩
    have hbne : Real.log (1 + r) ≠ 0 :=
      log_ne_zero_of_pos_of_ne_one hb (by intro h1; exact hr0 (by linarith))
    simp only [hbne, if_neg, if_false]

/-- Witness for C8 at savings 100, withdrawal 10, return 0 (the zero-rate
branch). -/
theorem C8_witness : savings_duration_calculator 100 10 0 = .ok (.val (100 / 10)) :=
  (C8_savings_duration (by norm_num) (by norm_num) (by norm_num)).2.1 rfl

lemma rate_mul_zpow_sub_one_pos {r : ℝ} {h : ℤ} (hr : -1 < r) (hr0 : r ≠ 0)
    (hh : 0 < h) : 0 < r * ((1 + r) ^ h - 1) := by
  have hb : (0 : ℝ) < 1 + r := by linarith
  have hn : h = (h.toNat : ℤ) := (Int.toNat_of_nonneg hh.le).symm
  have hnn : h.toNat ≠ 0 := by omega
  rw [hn, zpow_natCast]
  rcases lt_or_gt_of_ne hr0 with hneg | hpos
  · have h1 : 1 + r < 1 := by linarith
    have := pow_lt_one₀ hb.le h1 hnn
    nlinarith
  · have h1 : (1 : ℝ) < 1 + r := by linarith
    have := one_lt_pow₀ h1 hnn
    nlinarith

lemma zpow_sub_one_ne_zero {r : ℝ} {h : ℤ} (hr : -1 < r) (hr0 : r ≠ 0) (hh : 0 < h) :
    (1 + r) ^ h - 1 ≠ 0 := by
  intro hd
  have := rate_mul_zpow_sub_one_pos hr hr0 hh
  rw [hd, mul_zero] at this
  exact lt_irrefl 0 this

lemma payment_for_future_value_ok {fv r : ℝ} {h : ℤ} (hfv : 0 ≤ fv) (hh : 0 < h)
    (hr : -1 < r) :
    payment_for_future_value fv r h = .ok (pffvRaw fv r h) := by
  unfold payment_for_future_value pffvRaw
  rw [if_neg (not_lt.2 hfv), if_neg (not_le.2 hh), if_neg (not_lt.2 hr.le)]
  by_cases h0 : r = 0
  · rw [if_pos h0, if_pos h0]
  · rw [if_neg h0, if_neg h0, if_neg (zpow_sub_one_ne_zero hr h0 hh)]

lemma pffvRaw_pos {fv r : ℝ} {h : ℤ} (hfv : 0 < fv) (hh : 0 < h) (hr : -1 < r) :
    0 < pffvRaw fv r h := by
  unfold pffvRaw
  by_cases h0 : r = 0
  · rw [if_pos h0]
    have : (0 : ℝ) < (h : ℝ) := by exact_mod_cast hh
    positivity
  · rw [if_neg h0]
    have hsign := rate_mul_zpow_sub_one_pos hr h0 hh
    rw [mul_div_assoc]
    apply mul_pos hfv
    rcases lt_trichotomy r 0 with hneg | hzero | hpos
    · exact div_pos_iff.2 (Or.inr ⟨hneg, by nlinarith⟩)
    · exact absurd hzero h0
    · exact div_pos_iff.2 (Or.inl ⟨hpos, by nlinarith⟩)

/-- C10: for valid inputs (target > 0, horizon > 0, savings ≥ 0,
return > -1) the goal-based calculator succeeds with a non-negative
monthly contribution; the contribution is exactly 0 precisely when the
grown current savings meet or exceed the target, and otherwise it is the
strictly positive annual sinking-fund payment for the shortfall divided
by 12. -/
theorem C10_goal_based {t s r : ℝ} {h : ℤ} (ht : 0 < t) (hh : 0 < h) (hs : 0 ≤ s)
    (hr : -1 < r) :
    ∃ v, goal_based_savings_calculator t h s r = .ok v ∧ 0 ≤ v ∧
      (v = 0 ↔ t ≤ fvRaw s r h) ∧
      (fvRaw s r h < t → v = pffvRaw (t - fvRaw s r h) r h / 12 ∧ 0 < v) := by
  unfold goal_based_savings_calculator
  rw [if_neg (not_le.2 ht), if_neg (not_le.2 hh), if_neg (not_lt.2 hs),
    if_neg (not_lt.2 hr.le), future_value_ok hs hh.le hr.le]
  by_cases hmet : t - fvRaw s r h ≤ 0
  · refine ⟨0, ?_, le_refl 0, ?_, ?_⟩
    · simp only [if_pos hmet]
    · constructor
      · intro _
        linarith
      · intro _
        rfl
    · intro hlt
      linarith
  · have hpos : 0 < t - fvRaw s r h := by linarith
    refine ⟨pffvRaw (t - fvRaw s r h) r h / 12, ?_, ?_, ?_, ?_⟩
    · simp only [if_neg hmet, payment_for_future_value_ok hpos.le hh hr]
    · exact (div_pos (pffvRaw_pos hpos hh hr) (by norm_num)).le
    · constructor
      · intro h0
        exact absurd h0 (ne_of_gt (div_pos (pffvRaw_pos hpos hh hr) (by norm_num)))
      · intro hge
        linarith
    · intro _
      exact ⟨rfl, div_pos (pffvRaw_pos hpos hh hr) (by norm_num)⟩

/-- Witness for C10 at target 100, horizon 1, savings 0, return 0. -/
theorem C10_witness :
    ∃ v, goal_based_savings_calculator 100 1 0 0 = .ok v ∧ 0 ≤ v ∧
      (v = 0 ↔ (100 : ℝ) ≤ fvRaw 0 0 1) ∧
      (fvRaw 0 0 1 < 100 → v = pffvRaw (100 - fvRaw 0 0 1) 0 1 / 12 ∧ 0 < v) :=
  C10_goal_based (by norm_num) (by norm_num) (by norm_num) (by norm_num)

lemma pyInt_nonneg {x : ℝ} (hx : 0 ≤ x) : 0 ≤ pyInt x := by
  unfold pyInt
  rw [if_neg (not_lt.2 hx)]
  exact Int.floor_nonneg.2 hx

lemma solveLoop_ok {pv payment fv rate tolerance : ℝ} (hpv : 0 ≤ pv) (hp : 0 ≤ payment)
    (hr : -1 ≤ rate) (fuel : ℕ) :
    ∀ low high : ℝ, 0 ≤ low → low ≤ high →
      ∃ m, solveLoop pv payment fv rate tolerance fuel low high = .ok m ∧
        low ≤ m ∧ m ≤ high ∧
        (|fvRaw pv rate (pyInt m) + fvaRaw payment rate (pyInt m) - fv| < tolerance ∨
          m = ((bisectIter pv payment fv rate fuel (low, high)).1 +
               (bisectIter pv payment fv rate fuel (low, high)).2) / 2) := by
  induction fuel with
  | zero =>
    intro low high hlow hlh
    exact ⟨(low + high) / 2, rfl, by linarith, by linarith, Or.inr rfl⟩
  | succ k ih =>
    intro low high hlow hlh
    have hmid0 : 0 ≤ (low + high) / 2 := by linarith
    have hpy : (0 : ℤ) ≤ pyInt ((low + high) / 2) := pyInt_nonneg hmid0
    have hfv : future_value pv rate (pyInt ((low + high) / 2)) =
        .ok (fvRaw pv rate (pyInt ((low + high) / 2))) := future_value_ok hpv hpy hr
    have hfva : future_value_annuity payment rate (pyInt ((low + high) / 2)) =
        .ok (fvaRaw payment rate (pyInt ((low + high) / 2))) :=
      future_value_annuity_ok hp hpy hr
    rw [solveLoop, hfv, hfva]
    dsimp only
    by_cases hconv :
        |fvRaw pv rate (pyInt ((low + high) / 2)) +
          fvaRaw payment rate (pyInt ((low + high) / 2)) - fv| < tolerance
    · rw [if_pos hconv]
      exact ⟨(low + high) / 2, rfl, by linarith, by linarith, Or.inl hconv⟩
    · rw [if_neg hconv]
      by_cases hlt :
          fvRaw pv rate (pyInt ((low + high) / 2)) +
            fvaRaw payment rate (pyInt ((low + high) / 2)) < fv
      · rw [if_pos hlt]
        obtain ⟨m, hm, h1, h2, h3⟩ := ih ((low + high) / 2) high hmid0 (by linarith)
        refine ⟨m, hm, by linarith, h2, ?_⟩
        rcases h3 with h3 | h3
        · exact Or.inl h3
        · refine Or.inr ?_
          rw [bisectIter]
          have hstep : bisectStep pv payment fv rate (low, high) = ((low + high) / 2, high) := by
            unfold bisectStep
            dsimp only
            rw [if_pos hlt]
          rw [hstep]
          exact h3
      · rw [if_neg hlt]
        obtain ⟨m, hm, h1, h2, h3⟩ := ih low ((low + high) / 2) hlow (by linarith)
        refine ⟨m, hm, h1, by linarith, ?_⟩
        rcases h3 with h3 | h3
        · exact Or.inl h3
        · refine Or.inr ?_
          rw [bisectIter]
          have hstep : bisectStep pv payment fv rate (low, high) = (low, (low + high) / 2) := by
            unfold bisectStep
            dsimp only
            rw [if_neg hlt]
          rw [hstep]
          exact h3

/-- C7: for pv ≥ 0, payment ≥ 0, rate > -1 and any target and tolerance,
the bisection solver (structurally bounded by its 1000-iteration fuel over
the fixed bracket [0, 100]) terminates with a value m in [0, 100] that is
either a midpoint at which the truncated-period objective
`future_value(pv, rate, int m) + future_value_annuity(payment, rate, int m)`
is within tolerance of the target, or the midpoint of the final bracket
reached after all 1000 bracket-narrowing steps. -/
theorem C7_solver {pv payment fv rate tolerance : ℝ} (hpv : 0 ≤ pv) (hp : 0 ≤ payment)
    (hr : -1 < rate) :
    ∃ m, solve_for_periods pv payment fv rate tolerance = .ok m ∧ 0 ≤ m ∧ m ≤ 100 ∧
      (|fvRaw pv rate (pyInt m) + fvaRaw payment rate (pyInt m) - fv| < tolerance ∨
        m = ((bisectIter pv payment fv rate 1000 (0, 100)).1 +
             (bisectIter pv payment fv rate 1000 (0, 100)).2) / 2) :=
  solveLoop_ok hpv hp hr.le 1000 0 100 le_rfl (by norm_num)

/-- Witness for C7 at pv 0, payment 0, target 0, rate 0, tolerance 1. -/
theorem C7_witness :
    ∃ m, solve_for_periods 0 0 0 0 1 = .ok m ∧ 0 ≤ m ∧ m ≤ 100 ∧
      (|fvRaw 0 0 (pyInt m) + fvaRaw 0 0 (pyInt m) - 0| < 1 ∨
        m = ((bisectIter 0 0 0 0 1000 (0, 100)).1 +
             (bisectIter 0 0 0 0 1000 (0, 100)).2) / 2) :=
  C7_solver (by norm_num) (by norm_num) (by norm_num)

/-- C4 counterexample: with valid inputs (age 30, savings 1000, income
100000, savings rate 0, target 2000, expected return 0) the annual
contribution is zero but savings are positive, and the closed-form branch
divides by `log(1 + 0) = 0`: the call fails with `ZeroDivisionError`
instead of returning a finite age. -/
theorem C4_counterexample :
    retirement_age_calculator 30 1000 100000 0 2000 0 = .error .zeroDivisionError := by
  have h2 : pyLog ((2000 : ℝ) / 1000) = .ok (Real.log 2) := by
    rw [show ((2000 : ℝ) / 1000) = 2 by norm_num, pyLog_ok (by norm_num)]
  have h1 : pyLog ((1 : ℝ) + 0) = .ok 0 := by
    rw [show ((1 : ℝ) + 0) = 1 by norm_num, pyLog_ok (by norm_num), Real.log_one]
  unfold retirement_age_calculator
  rw [if_neg (by norm_num), if_neg (by norm_num), if_neg (by norm_num),
    if_neg (by norm_num), if_neg (by norm_num), if_neg (by norm_num)]
  dsimp only
  rw [if_pos (by norm_num : (100000 : ℝ) * 0 = 0), if_neg (by norm_num : ¬(1000 : ℝ) = 0),
    h2, h1]
  dsimp only
  rw [if_pos rfl]

/-- C4 amended: with valid inputs, a zero annual contribution together with
zero savings returns the `float('inf')` sentinel (distinguishable by
construction from every finite `PyNum.val` age and from the age-100 cap,
with no iteration involved); a positive contribution always yields a
finite age; and a zero contribution with positive savings yields a finite
age provided the expected return is neither 0 nor -1 (at exactly those two
rates the closed-form branch raises a runtime error instead). -/
theorem C4_retirement_sentinel {age : ℤ} {s inc sr t r : ℝ}
    (hage1 : 18 ≤ age) (hage2 : age ≤ 100) (hs : 0 ≤ s) (hinc : 0 < inc)
    (hsr1 : 0 ≤ sr) (hsr2 : sr ≤ 1) (ht : 0 < t) (hr : -1 ≤ r) :
    (inc * sr = 0 → s = 0 → retirement_age_calculator age s inc sr t r = .ok .inf) ∧
    (inc * sr ≠ 0 → ∃ v : ℝ, retirement_age_calculator age s inc sr t r = .ok (.val v)) ∧
    (inc * sr = 0 → s ≠ 0 → r ≠ 0 → r ≠ -1 →
      ∃ v : ℝ, retirement_age_calculator age s inc sr t r = .ok (.val v)) := by
  unfold retirement_age_calculator
  rw [if_neg (by simp only [not_or, not_lt]; omega), if_neg (not_lt.2 hs),
    if_neg (not_le.2 hinc), if_neg (by simp only [not_or, not_lt]; constructor <;> linarith),
    if_neg (not_le.2 ht), if_neg (not_lt.2 hr)]
  dsimp only
  refine ⟨?_, ?_, ?_⟩
  · intro h0 hs0
    rw [if_pos h0, if_pos hs0]
  · intro hne
    rw [if_neg hne]
    by_cases hr0 : r = 0
    · rw [if_pos hr0]
      exact ⟨_, rfl⟩
    · rw [if_neg hr0]
      have hpay : 0 ≤ inc * sr := mul_nonneg hinc.le hsr1
      obtain ⟨m, hm, -, -, -⟩ := solveLoop_ok hs hpay hr 1000 0 100 le_rfl (by norm_num)
      unfold solve_for_periods
      rw [hm]
      exact ⟨_, rfl⟩
  · intro h0 hsne hr0 hrm1
    have hspos : 0 < s := lt_of_le_of_ne hs (Ne.symm hsne)
    have hb : (0 : ℝ) < 1 + r := by
      rcases lt_or_eq_of_le hr with h | h
      · linarith
      · exact absurd h.symm hrm1
    rw [if_pos h0, if_neg hsne, pyLog_ok (div_pos ht hspos), pyLog_ok hb]
    dsimp only
    rw [if_neg (log_ne_zero_of_pos_of_ne_one hb (by intro h1; exact hr0 (by linarith)))]
    exact ⟨_, rfl⟩

/-- Witness for C4 amended at age 30, savings 0, income 1, savings rate 0,
target 1, return 0.05 (the zero-contribution, zero-savings case). -/
theorem C4_witness :
    ((1 : ℝ) * 0 = 0 → (0 : ℝ) = 0 →
      retirement_age_calculator 30 0 1 0 1 0.05 = .ok .inf) ∧
    ((1 : ℝ) * 0 ≠ 0 →
      ∃ v : ℝ, retirement_age_calculator 30 0 1 0 1 0.05 = .ok (.val v)) ∧
    ((1 : ℝ) * 0 = 0 → (0 : ℝ) ≠ 0 → (0.05 : ℝ) ≠ 0 → (0.05 : ℝ) ≠ -1 →
      ∃ v : ℝ, retirement_age_calculator 30 0 1 0 1 0.05 = .ok (.val v)) :=
  C4_retirement_sentinel (by norm_num) (by norm_num) (by norm_num) (by norm_num)
    (by norm_num) (by norm_num) (by norm_num) (by norm_num)

lemma zpow_neg_lt_one {x : ℝ} {n : ℤ} (hx : 1 < x) (hn : 0 < n) : x ^ (-n) < 1 := by
  have hxn : 1 < x ^ n := by
    have h : n = (n.toNat : ℤ) := (Int.toNat_of_nonneg hn.le).symm
    rw [h, zpow_natCast]
    exact one_lt_pow₀ hx (by omega)
  rw [zpow_neg]
  exact inv_lt_one_of_one_lt₀ hxn

lemma zpow_neg_pos {x : ℝ} (hx : 0 < x) (n : ℤ) : 0 < x ^ (-n) := zpow_pos hx _

lemma payment_for_present_value_ok {pv r : ℝ} {n : ℤ} (hpv : 0 ≤ pv) (hn : 0 < n)
    (hr : 0 ≤ r) : payment_for_present_value pv r n = .ok (ppvRaw pv r n) := by
  unfold payment_for_present_value ppvRaw
  rw [if_neg (not_lt.2 hpv), if_neg (not_le.2 hn), if_neg (by intro h; linarith)]
  by_cases h0 : r = 0
  · rw [if_pos h0, if_pos h0]
  · have hrpos : 0 < r := lt_of_le_of_ne hr (Ne.symm h0)
    have hz : (1 + r) ^ (-n) < 1 := zpow_neg_lt_one (by linarith) hn
    rw [if_neg h0, if_neg (by intro h; linarith), if_neg (by intro h; linarith), if_neg h0]

lemma ppvRaw_pos {pv r : ℝ} {n : ℤ} (hpv : 0 < pv) (hn : 0 < n) (hr : 0 ≤ r) :
    0 < ppvRaw pv r n := by
  unfold ppvRaw
  by_cases h0 : r = 0
  · rw [if_pos h0]
    apply div_pos hpv
    exact_mod_cast hn
  · have hrpos : 0 < r := lt_of_le_of_ne hr (Ne.symm h0)
    have hz : (1 + r) ^ (-n) < 1 := zpow_neg_lt_one (by linarith) hn
    rw [if_neg h0]
    apply div_pos (mul_pos hpv hrpos)
    linarith

lemma mortgagePM_pos {B mr : ℝ} {y : ℤ} (hB : 0 < B) (hmr : 0 ≤ mr) (hy : 0 < y) :
    0 < mortgagePM B mr y :=
  ppvRaw_pos hB (by omega) (by positivity)

lemma mortgage_ratio_eq {B mr : ℝ} {y : ℤ} (hB : 0 < B) (hρ : 0 < mr / 12) (hy : 0 < y) :
    B * (mr / 12) / (mortgagePM B mr y + mortgagePM B mr y) =
      (1 - (1 + mr / 12) ^ (-(y * 12))) / 2 := by
  have hz : (1 + mr / 12) ^ (-(y * 12)) < 1 :=
    zpow_neg_lt_one (by linarith) (by omega)
  have hD : (0 : ℝ) < 1 - (1 + mr / 12) ^ (-(y * 12)) := by linarith
  have hDne := hD.ne'
  have hBρ : B * (mr / 12) ≠ 0 := (mul_pos hB hρ).ne'
  have key : ∀ a D : ℝ, a ≠ 0 → D ≠ 0 → a / (a / D + a / D) = D / 2 := by
    intro a D ha hD
    rw [div_add_div_same, div_div_eq_mul_div, show a + a = a * 2 by ring,
      mul_div_mul_left D 2 ha]
  unfold mortgagePM ppvRaw
  rw [if_neg hρ.ne']
  exact key _ _ hBρ hDne

lemma mortgageMonths_spec {B mr : ℝ} {y : ℤ} (hB : 0 < B) (hmr : 0 ≤ mr) (hy : 0 < y) :
    calculate_payoff_time B (mr / 12) (mortgagePM B mr y + mortgagePM B mr y) =
      .ok (mortgageMonths B mr y) ∧ 0 ≤ mortgageMonths B mr y := by
  have hpm := mortgagePM_pos hB hmr hy
  have hppos : 0 < mortgagePM B mr y + mortgagePM B mr y := by linarith
  by_cases hρ : mr / 12 = 0
  · constructor
    · unfold calculate_payoff_time mortgageMonths payoffRaw
      rw [if_pos hρ, if_pos hρ, if_neg hppos.ne']
    · unfold mortgageMonths payoffRaw
      rw [if_pos hρ]
      positivity
  · have hρpos : 0 < mr / 12 := lt_of_le_of_ne (by positivity) (Ne.symm hρ)
    have hrat := mortgage_ratio_eq hB hρpos hy
    have hz : (1 + mr / 12) ^ (-(y * 12)) < 1 :=
      zpow_neg_lt_one (by linarith) (by omega)
    have hzpos : (0 : ℝ) < (1 + mr / 12) ^ (-(y * 12)) := zpow_pos (by linarith) _
    have harg1 : 0 < 1 - B * (mr / 12) / (mortgagePM B mr y + mortgagePM B mr y) := by
      rw [hrat]; linarith
    have harg2 : 1 - B * (mr / 12) / (mortgagePM B mr y + mortgagePM B mr y) < 1 := by
      rw [hrat]; linarith
    have hlogb : Real.log (1 - B * (mr / 12) / (mortgagePM B mr y + mortgagePM B mr y)) < 0 :=
      Real.log_neg harg1 harg2
    have hlogq : 0 < Real.log (1 + mr / 12) := Real.log_pos (by linarith)
    constructor
    · unfold calculate_payoff_time mortgageMonths payoffRaw
      rw [if_neg hρ, if_neg hρ, if_neg hppos.ne', pyLog_ok harg1]
      dsimp only
      rw [pyLog_ok (by linarith : (0 : ℝ) < 1 + mr / 12)]
      dsimp only
      rw [if_neg hlogq.ne']
    · unfold mortgageMonths payoffRaw
      rw [if_neg hρ]
      exact div_nonneg (by linarith) hlogq.le

lemma mortgage_spec {B mr : ℝ} {y : ℤ} {ir : ℝ} (hB : 0 < B) (hmr : 0 ≤ mr)
    (hy : 0 < y) (hir : -1 < ir) :
    mortgage_vs_invest_analysis B mr y ir = .ok
      ⟨mortgagePM B mr y, mortgagePM B mr y, mortgageMonths B mr y / 12,
       mortgageIS B mr y, mortgageInvest B mr y ir, mortgageNet B mr y ir,
       if 0 < mortgageNet B mr y ir then "invest" else "pay_mortgage"⟩ := by
  obtain ⟨hcp, hM0⟩ := mortgageMonths_spec hB hmr hy
  have hpm := mortgagePM_pos hB hmr hy
  have h1 : payment_for_present_value B (mr / 12) (y * 12) = .ok (mortgagePM B mr y) :=
    payment_for_present_value_ok hB.le (by omega) (by positivity)
  have h3 : future_value_annuity (mortgagePM B mr y) (ir / 12)
      (pyInt (mortgageMonths B mr y)) = .ok (mortgageInvest B mr y ir) := by
    unfold mortgageInvest
    exact future_value_annuity_ok hpm.le (pyInt_nonneg hM0) (by linarith)
  unfold mortgage_vs_invest_analysis
  rw [if_neg (not_le.2 hB), if_neg (not_lt.2 hmr), if_neg (not_le.2 hy),
    if_neg (not_lt.2 hir.le)]
  dsimp only
  rw [h1]
  dsimp only
  rw [hcp]
  dsimp only
  rw [h3]
  dsimp only
  unfold mortgageNet mortgageIS
  rfl

lemma fvaRaw_eq_geom_sum (p ρ : ℝ) {n : ℤ} (hn : 0 ≤ n) :
    fvaRaw p ρ n = p * ∑ i ∈ Finset.range n.toNat, (1 + ρ) ^ i := by
  unfold fvaRaw
  by_cases h0 : ρ = 0
  · subst h0
    rw [if_pos rfl]
    simp only [add_zero, one_pow, Finset.sum_const, Finset.card_range, nsmul_eq_mul, mul_one]
    congr 1
    exact_mod_cast congrArg (fun m : ℤ => (m : ℝ)) (Int.toNat_of_nonneg hn).symm
  · rw [if_neg h0]
    have h1 : (1 : ℝ) + ρ ≠ 1 := fun h => h0 (by linarith)
    rw [geom_sum_eq h1]
    have hzp : (1 + ρ) ^ n = (1 + ρ) ^ n.toNat := by
      rw [← zpow_natCast, Int.toNat_of_nonneg hn]
    rw [hzp, show (1 : ℝ) + ρ - 1 = ρ by ring, mul_div_assoc]

lemma fvaRaw_mono {p ρ1 ρ2 : ℝ} {n : ℤ} (hp : 0 ≤ p) (hn : 0 ≤ n)
    (hρ1 : -1 ≤ ρ1) (h12 : ρ1 ≤ ρ2) : fvaRaw p ρ1 n ≤ fvaRaw p ρ2 n := by
  rw [fvaRaw_eq_geom_sum p ρ1 hn, fvaRaw_eq_geom_sum p ρ2 hn]
  apply mul_le_mul_of_nonneg_left _ hp
  apply Finset.sum_le_sum
  intro i _
  exact pow_le_pow_left₀ (by linarith) (by linarith) i

/-- C1 amended: for every valid input, `mortgage_vs_invest_analysis`
returns a record whose recommendation is one of exactly the two values
"invest" and "pay_mortgage" (the source's spelling of the pay-down-debt
branch), equal to "invest" if and only if the computed net benefit is
strictly positive, with a net benefit of exactly zero yielding
"pay_mortgage". -/
theorem C1_recommendation {B mr : ℝ} {y : ℤ} {ir : ℝ} {r : MortgageAnalysis}
    (hB : 0 < B) (hmr : 0 ≤ mr) (hy : 0 < y) (hir : -1 < ir)
    (h : mortgage_vs_invest_analysis B mr y ir = .ok r) :
    (r.recommendation = "invest" ∨ r.recommendation = "pay_mortgage") ∧
    (r.recommendation = "invest" ↔ 0 < r.net_benefit) ∧
    (r.net_benefit = 0 → r.recommendation = "pay_mortgage") := by
  rw [mortgage_spec hB hmr hy hir] at h
  injection h with h
  subst h
  dsimp only
  by_cases hpos : 0 < mortgageNet B mr y ir
  · rw [if_pos hpos]
    refine ⟨Or.inl rfl, ⟨fun _ => hpos, fun _ => rfl⟩, fun h0 => ?_⟩
    rw [h0] at hpos
    exact absurd hpos (lt_irrefl 0)
  · rw [if_neg hpos]
    exact ⟨Or.inr rfl, ⟨fun hinv => absurd hinv (by decide), fun hn => absurd hn hpos⟩,
      fun _ => rfl⟩

/-- C5: raising the investment return (all other valid inputs fixed) never
flips the recommendation from "invest" to paying down the mortgage, and the
net benefit is monotonically non-decreasing in the investment return. -/
theorem C5_invest_monotone {B mr : ℝ} {y : ℤ} {r1 r2 : ℝ} {a b : MortgageAnalysis}
    (hB : 0 < B) (hmr : 0 ≤ mr) (hy : 0 < y) (h1 : -1 < r1) (h2 : -1 < r2)
    (h12 : r1 ≤ r2)
    (ha : mortgage_vs_invest_analysis B mr y r1 = .ok a)
    (hb : mortgage_vs_invest_analysis B mr y r2 = .ok b)
    (hinv : a.recommendation = "invest") :
    b.recommendation = "invest" ∧ a.net_benefit ≤ b.net_benefit := by
  rw [mortgage_spec hB hmr hy h1] at ha
  rw [mortgage_spec hB hmr hy h2] at hb
  injection ha with ha
  injection hb with hb
  subst ha
  subst hb
  dsimp only at hinv ⊢
  have hpm := (mortgagePM_pos hB hmr hy).le
  have hM0 := (mortgageMonths_spec hB hmr hy).2
  have hmono : mortgageInvest B mr y r1 ≤ mortgageInvest B mr y r2 := by
    unfold mortgageInvest
    exact fvaRaw_mono hpm (pyInt_nonneg hM0) (by linarith) (by linarith)
  have hnet : mortgageNet B mr y r1 ≤ mortgageNet B mr y r2 := by
    unfold mortgageNet
    linarith
  by_cases hpos1 : 0 < mortgageNet B mr y r1
  · rw [if_pos (by linarith : 0 < mortgageNet B mr y r2)]
    exact ⟨rfl, hnet⟩
  · rw [if_neg hpos1] at hinv
    exact absurd hinv (by decide)

lemma mortgagePM_cex : mortgagePM 1 12 2 = 16777216 / 16777215 := by
  unfold mortgagePM ppvRaw
  rw [if_neg (by norm_num : ¬(12 : ℝ) / 12 = 0)]
  norm_num

lemma mortgageMonths_cex :
    mortgageMonths 1 12 2 = -Real.log (16777217 / 33554432) / Real.log 2 := by
  unfold mortgageMonths payoffRaw
  rw [mortgagePM_cex, if_neg (by norm_num : ¬(12 : ℝ) / 12 = 0)]
  norm_num

lemma mortgageMonths_cex_bounds :
    0 ≤ mortgageMonths 1 12 2 ∧ mortgageMonths 1 12 2 < 1 := by
  have hlx : Real.log (16777217 / 33554432) < 0 :=
    Real.log_neg (by norm_num) (by norm_num)
  have hl2 : (0 : ℝ) < Real.log 2 := Real.log_pos (by norm_num)
  constructor
  · rw [mortgageMonths_cex]
    exact div_nonneg (by linarith) hl2.le
  · rw [mortgageMonths_cex, div_lt_one hl2]
    have hinv : -Real.log (16777217 / 33554432) = Real.log (33554432 / 16777217) := by
      rw [← Real.log_inv]
      norm_num
    rw [hinv]
    exact Real.log_lt_log (by norm_num) (by norm_num)

lemma mortgage_cex_floor : pyInt (mortgageMonths 1 12 2) = 0 := by
  obtain ⟨h0, h1⟩ := mortgageMonths_cex_bounds
  unfold pyInt
  rw [if_neg (not_lt.2 h0)]
  exact Int.floor_eq_zero_iff.2 ⟨h0, h1⟩

lemma mortgage_cex_net : ¬ 0 < mortgageNet 1 12 2 (-0.99) := by
  have hV : mortgageInvest 1 12 2 (-0.99) = 0 := by
    unfold mortgageInvest fvaRaw
    rw [mortgage_cex_floor, if_neg (by norm_num : ¬(-0.99 : ℝ) / 12 = 0), zpow_zero]
    ring
  have hIS : 0 < mortgageIS 1 12 2 := by
    obtain ⟨h0, h1⟩ := mortgageMonths_cex_bounds
    unfold mortgageIS
    rw [mortgagePM_cex]
    push_cast
    nlinarith
  unfold mortgageNet
  rw [hV]
  linarith

/-- C1 counterexample: at the valid input (balance 1, mortgage rate 12,
2 years, investment return -0.99) the analysis recommends the pay-down
branch, and the string the source returns for it is "pay_mortgage" — not
the value "pay_down_debt" that the claim names, so the recommendation is
not drawn from the claimed two-element set. -/
theorem C1_counterexample :
    Except.map MortgageAnalysis.recommendation
      (mortgage_vs_invest_analysis 1 12 2 (-0.99)) = .ok "pay_mortgage" ∧
    ("pay_mortgage" : String) ≠ "invest" ∧
    ("pay_mortgage" : String) ≠ "pay_down_debt" := by
  refine ⟨?_, by decide, by decide⟩
  rw [mortgage_spec (by norm_num) (by norm_num) (by norm_num) (by norm_num)]
  dsimp only [Except.map]
  rw [if_neg mortgage_cex_net]

lemma mortgagePM_demo : mortgagePM 24 0 1 = 2 := by
  unfold mortgagePM ppvRaw
  rw [if_pos (by norm_num : (0 : ℝ) / 12 = 0)]
  norm_num

lemma mortgageMonths_demo : mortgageMonths 24 0 1 = 6 := by
  unfold mortgageMonths payoffRaw
  rw [mortgagePM_demo, if_pos (by norm_num : (0 : ℝ) / 12 = 0)]
  norm_num

lemma mortgageNet_demo : mortgageNet 24 0 1 0 = 12 := by
  have hfl : pyInt (mortgageMonths 24 0 1) = 6 := by
    rw [mortgageMonths_demo]
    unfold pyInt
    rw [if_neg (by norm_num)]
    norm_num
  have hV : mortgageInvest 24 0 1 0 = 12 := by
    unfold mortgageInvest fvaRaw
    rw [mortgagePM_demo, hfl, if_pos (by norm_num : (0 : ℝ) / 12 = 0)]
    norm_num
  have hIS : mortgageIS 24 0 1 = 0 := by
    unfold mortgageIS
    rw [mortgagePM_demo, mortgageMonths_demo]
    norm_num
  unfold mortgageNet
  rw [hV, hIS]
  norm_num

lemma mortgage_demo_invest :
    (⟨mortgagePM 24 0 1, mortgagePM 24 0 1, mortgageMonths 24 0 1 / 12, mortgageIS 24 0 1,
      mortgageInvest 24 0 1 0, mortgageNet 24 0 1 0,
      if 0 < mortgageNet 24 0 1 0 then "invest" else "pay_mortgage"⟩ :
      MortgageAnalysis).recommendation = "invest" := by
  dsimp only
  rw [if_pos (by rw [mortgageNet_demo]; norm_num)]

/-- Witness for C1 amended at balance 24, rate 0, 1 year, return 0. -/
theorem C1_witness :
    ((⟨mortgagePM 24 0 1, mortgagePM 24 0 1, mortgageMonths 24 0 1 / 12, mortgageIS 24 0 1,
        mortgageInvest 24 0 1 0, mortgageNet 24 0 1 0,
        if 0 < mortgageNet 24 0 1 0 then "invest" else "pay_mortgage"⟩ :
        MortgageAnalysis).recommendation = "invest" ∨
      (⟨mortgagePM 24 0 1, mortgagePM 24 0 1, mortgageMonths 24 0 1 / 12, mortgageIS 24 0 1,
        mortgageInvest 24 0 1 0, mortgageNet 24 0 1 0,
        if 0 < mortgageNet 24 0 1 0 then "invest" else "pay_mortgage"⟩ :
        MortgageAnalysis).recommendation = "pay_mortgage") ∧
    ((⟨mortgagePM 24 0 1, mortgagePM 24 0 1, mortgageMonths 24 0 1 / 12, mortgageIS 24 0 1,
        mortgageInvest 24 0 1 0, mortgageNet 24 0 1 0,
        if 0 < mortgageNet 24 0 1 0 then "invest" else "pay_mortgage"⟩ :
        MortgageAnalysis).recommendation = "invest" ↔
      0 < (⟨mortgagePM 24 0 1, mortgagePM 24 0 1, mortgageMonths 24 0 1 / 12,
        mortgageIS 24 0 1, mortgageInvest 24 0 1 0, mortgageNet 24 0 1 0,
        if 0 < mortgageNet 24 0 1 0 then "invest" else "pay_mortgage"⟩ :
        MortgageAnalysis).net_benefit) ∧
    ((⟨mortgagePM 24 0 1, mortgagePM 24 0 1, mortgageMonths 24 0 1 / 12, mortgageIS 24 0 1,
        mortgageInvest 24 0 1 0, mortgageNet 24 0 1 0,
        if 0 < mortgageNet 24 0 1 0 then "invest" else "pay_mortgage"⟩ :
        MortgageAnalysis).net_benefit = 0 →
      (⟨mortgagePM 24 0 1, mortgagePM 24 0 1, mortgageMonths 24 0 1 / 12, mortgageIS 24 0 1,
        mortgageInvest 24 0 1 0, mortgageNet 24 0 1 0,
        if 0 < mortgageNet 24 0 1 0 then "invest" else "pay_mortgage"⟩ :
        MortgageAnalysis).recommendation = "pay_mortgage") :=
  C1_recommendation (by norm_num) (by norm_num) (by norm_num) (by norm_num)
    (mortgage_spec (by norm_num) (by norm_num) (by norm_num) (by norm_num))

/-- Witness for C5 at balance 24, rate 0, 1 year, returns 0 ≤ 1. -/
theorem C5_witness :
    (⟨mortgagePM 24 0 1, mortgagePM 24 0 1, mortgageMonths 24 0 1 / 12, mortgageIS 24 0 1,
      mortgageInvest 24 0 1 1, mortgageNet 24 0 1 1,
      if 0 < mortgageNet 24 0 1 1 then "invest" else "pay_mortgage"⟩ :
      MortgageAnalysis).recommendation = "invest" ∧
    (⟨mortgagePM 24 0 1, mortgagePM 24 0 1, mortgageMonths 24 0 1 / 12, mortgageIS 24 0 1,
      mortgageInvest 24 0 1 0, mortgageNet 24 0 1 0,
      if 0 < mortgageNet 24 0 1 0 then "invest" else "pay_mortgage"⟩ :
      MortgageAnalysis).net_benefit ≤
    (⟨mortgagePM 24 0 1, mortgagePM 24 0 1, mortgageMonths 24 0 1 / 12, mortgageIS 24 0 1,
      mortgageInvest 24 0 1 1, mortgageNet 24 0 1 1,
      if 0 < mortgageNet 24 0 1 1 then "invest" else "pay_mortgage"⟩ :
      MortgageAnalysis).net_benefit :=
  C5_invest_monotone (by norm_num) (by norm_num) (by norm_num) (by norm_num) (by norm_num)
    (by norm_num)
    (mortgage_spec (by norm_num) (by norm_num) (by norm_num) (by norm_num))
    (mortgage_spec (by norm_num) (by norm_num) (by norm_num) (by norm_num))
    mortgage_demo_invest
